import Mathlib

/-!
Shallow embedding of `symetrics/symetrics_api.py` (class `Symetrics`) and the
data-holder declarations it imports from `symetrics.src.datastruct`.

The SQLite store is modelled as pure lists of table rows; a query is the exact
filter the source's SQL WHERE clause expresses, and we record every executed
query in a trace so that "the query was (not) executed" is observable.
Python exceptions that escape a getter (the source catches only
`sqlite3.Error`) are modelled by `PyResult.raise`.
-/

/-- Modelled from the spec: the `GenomeReference` enumeration from
`symetrics.src.datastruct` (not under `src/`): exactly two genome builds,
`hg19` (BuildA) and `hg38` (BuildB). -/
inductive GenomeReference where
  | hg19 : GenomeReference
  | hg38 : GenomeReference
deriving DecidableEq, Repr

/-- Modelled from the spec: the `VariantObject` data holder from
`symetrics.src.datastruct` (not under `src/`): chromosome, position,
reference allele, alternate allele and genome build; pure data, no logic. -/
structure VariantObject where
  chr : String
  pos : Int
  ref : String
  alt : String
  genome : GenomeReference
deriving DecidableEq, Repr

/-- Outcome of a Python call: a returned value, or an uncaught exception
(the source's `except Error` catches only `sqlite3.Error`, so `IndexError`,
`AttributeError` and `ValueError` escape to the caller). -/
inductive PyResult (α : Type) where
  | ret : α → PyResult α
  | raise : String → PyResult α
deriving DecidableEq, Repr

/-- A record of one executed SQL query: the table it ran against and the
exact-match key of its WHERE clause, including which position column
(`pos` vs `pos_GRCh38`) the position was compared against. -/
structure SqlQuery where
  table : String
  whereChr : String
  wherePosCol : String
  wherePos : Int
  whereRef : String
  whereAlt : String
deriving DecidableEq, Repr

/-- A row of the `SILVA` table (hg19-indexed). -/
structure SilvaRow where
  chrom : String
  pos : Int
  ref : String
  alt : String
  gene : String
  rscu : String
  drscu : String
  gerp : String
  cpg : String
  cpgx : String
deriving DecidableEq, Repr

/-- The dictionary `get_silva_score` builds from the first fetched row. -/
structure SilvaScores where
  CHR : String
  POS : Int
  REF : String
  ALT : String
  GENE : String
  RSCU : String
  dRSCU : String
  GERP : String
  CPG : String
  CPGX : String
deriving DecidableEq, Repr

/-- The WHERE clause of the SILVA query: exact match on chromosome, position,
reference allele, alternate allele. -/
def silvaMatches (v : VariantObject) (r : SilvaRow) : Bool :=
  r.chrom == v.chr && r.pos == v.pos && r.ref == v.ref && r.alt == v.alt

/-- Embedding of `Symetrics.get_silva_score`: runs the SILVA query, then takes
`silva_rows[0]`; on zero rows that subscript raises `IndexError`, which the
`except Error` clause does not catch. No genome-build check is performed. -/
def get_silva_score (db : List SilvaRow) (v : VariantObject) :
    PyResult SilvaScores × List SqlQuery :=
  let q : SqlQuery :=
    { table := "SILVA", whereChr := v.chr, wherePosCol := "pos",
      wherePos := v.pos, whereRef := v.ref, whereAlt := v.alt }
  match db.filter (silvaMatches v) with
  | [] => (PyResult.raise "IndexError", [q])
  | r :: _ =>
      (PyResult.ret
        { CHR := r.chrom, POS := r.pos, REF := r.ref, ALT := r.alt,
          GENE := r.gene, RSCU := r.rscu, dRSCU := r.drscu, GERP := r.gerp,
          CPG := r.cpg, CPGX := r.cpgx }, [q])

/-- The hg19-tagged variant used throughout the source's docstring examples:
chromosome 7, position 91763673, C to A. -/
def exampleVariantHg19 : VariantObject :=
  ⟨"7", 91763673, "C", "A", GenomeReference.hg19⟩

/-- The same variant tagged hg38, as in the spec's end-to-end scenario. -/
def exampleVariantHg38 : VariantObject :=
  ⟨"7", 91763673, "C", "A", GenomeReference.hg38⟩

/-- A row of the `SURF` table (hg38-indexed): columns CHR, POS, REF, ALT,
GENE, SURF. -/
structure SurfRow where
  chr : String
  pos : Int
  ref : String
  alt : String
  gene : String
  surf : String
deriving DecidableEq, Repr

/-- The dictionary `get_surf_score` builds from the first fetched row.  The
source maps the key `"SURF"` to `surf_scores[4]`, which is the GENE column of
the six selected columns; the actual SURF column (index 5) and the GENE key
never appear in the dictionary. -/
structure SurfScores where
  CHR : String
  POS : Int
  REF : String
  ALT : String
  SURF : String
deriving DecidableEq, Repr

/-- The WHERE clause of the SURF query. -/
def surfMatches (v : VariantObject) (r : SurfRow) : Bool :=
  r.chr == v.chr && r.pos == v.pos && r.ref == v.ref && r.alt == v.alt

/-- Embedding of `Symetrics.get_surf_score`: runs the SURF query
(`SELECT CHR,POS,REF,ALT,GENE,SURF`), takes `surf_rows[0]` (raising
`IndexError` on zero rows), and builds the dictionary from tuple indices
0..4 — so the value stored under `"SURF"` is the row's GENE column.
No genome-build check is performed. -/
def get_surf_score (db : List SurfRow) (v : VariantObject) :
    PyResult SurfScores × List SqlQuery :=
  let q : SqlQuery :=
    { table := "SURF", whereChr := v.chr, wherePosCol := "POS",
      wherePos := v.pos, whereRef := v.ref, whereAlt := v.alt }
  match db.filter (surfMatches v) with
  | [] => (PyResult.raise "IndexError", [q])
  | r :: _ =>
      (PyResult.ret
        { CHR := r.chr, POS := r.pos, REF := r.ref, ALT := r.alt,
          SURF := r.gene }, [q])

/-- A row of the `SYNVEP` table, the only table carrying both an hg19
position column (`pos`) and an hg38 position column (`pos_GRCh38`). -/
structure SynvepRow where
  chr : String
  pos : Int
  pos_GRCh38 : Int
  ref : String
  alt : String
  hgnc_gene_symbol : String
  synVep : String
deriving DecidableEq, Repr

/-- The dictionary `get_synvep_score` builds from the first fetched row. -/
structure SynvepScores where
  CHR : String
  POS : Int
  REF : String
  ALT : String
  GENE : String
  SYNVEP : String
deriving DecidableEq, Repr

/-- The WHERE clause both branches of `get_synvep_score` issue: the hg38
branch intentionally and the hg19 branch as well, since its query string
also compares `pos_GRCh38 = {variant._pos}`. -/
def synvepMatchesGRCh38 (v : VariantObject) (r : SynvepRow) : Bool :=
  r.chr == v.chr && r.pos_GRCh38 == v.pos && r.ref == v.ref && r.alt == v.alt

/-- Embedding of `Symetrics.get_synvep_score`.  For an hg38 variant the query
selects `pos_GRCh38 as POS` and filters on `pos_GRCh38`; for an hg19 variant
the query selects `pos as POS` but its WHERE clause still filters on
`pos_GRCh38 = {variant._pos}` (source line 196).  Zero rows raise
`IndexError` via `synvep_rows[0]`. -/
def get_synvep_score (db : List SynvepRow) (v : VariantObject) :
    PyResult SynvepScores × List SqlQuery :=
  let q : SqlQuery :=
    { table := "SYNVEP", whereChr := v.chr, wherePosCol := "pos_GRCh38",
      wherePos := v.pos, whereRef := v.ref, whereAlt := v.alt }
  match db.filter (synvepMatchesGRCh38 v) with
  | [] => (PyResult.raise "IndexError", [q])
  | r :: _ =>
      (PyResult.ret
        { CHR := r.chr,
          POS := match v.genome with
            | GenomeReference.hg38 => r.pos_GRCh38
            | GenomeReference.hg19 => r.pos,
          REF := r.ref, ALT := r.alt, GENE := r.hgnc_gene_symbol,
          SYNVEP := r.synVep }, [q])

/-- A row of the `SPLICEAI` table: the four key columns plus the
pipe-delimited `INFO` annotation string. -/
structure SpliceaiRow where
  chr : String
  pos : Int
  ref : String
  alt : String
  info : String
deriving DecidableEq, Repr

/-- One record of the list `get_spliceai_score` returns
(`to_dict(orient='records')` on the reduced frame): the four key columns and
`MAX_DS`.  `MAX_DS` is a string, because the INFO subfields come out of
`str.split` as strings and Python's `max` compares them lexicographically. -/
structure SpliceaiRec where
  CHR : String
  POS : Int
  REF : String
  ALT : String
  MAX_DS : String
deriving DecidableEq, Repr

/-- The WHERE clause of the SPLICEAI query. -/
def spliceaiMatches (v : VariantObject) (r : SpliceaiRow) : Bool :=
  r.chr == v.chr && r.pos == v.pos && r.ref == v.ref && r.alt == v.alt

/-- Splitting of a character list at every pipe, keeping empty pieces:
the semantics of Python's `str.split('|')` / pandas `str.split('|')`. -/
def splitPipeAux : List Char → List (List Char)
  | [] => [[]]
  | c :: cs =>
      match splitPipeAux cs with
      | [] => [[]]
      | g :: gs => if c = '|' then [] :: g :: gs else (c :: g) :: gs

/-- The pipe-split of a string, as Python's `split('|')` computes it. -/
def splitPipe (s : String) : List String :=
  (splitPipeAux s.data).map List.asString

/-- Python's `<` on strings: lexicographic comparison of code points. -/
def pyStrLt : List Char → List Char → Bool
  | [], [] => false
  | [], _ :: _ => true
  | _ :: _, [] => false
  | a :: as, b :: bs => if a = b then pyStrLt as bs else decide (a < b)

/-- Python's two-argument `max` on strings: the second argument only when it
is strictly greater. -/
def pyStrMax (a b : String) : String := if pyStrLt a.data b.data then b else a

/-- The per-row reduction of `get_spliceai_score`: split `INFO` on the pipe
into ALLELE|SYMBOL|DS_AG|DS_AL|DS_DG|DS_DL|DP_AG|DP_AL|DP_DG|DP_DL and take
`max(DS_AG, DS_AL, DS_DG, DS_DL)` — Python string `max`, i.e. the
lexicographic maximum of the four substrings. -/
def spliceaiRecordOfRow (r : SpliceaiRow) : SpliceaiRec :=
  let parts := splitPipe r.info
  { CHR := r.chr, POS := r.pos, REF := r.ref, ALT := r.alt,
    MAX_DS := pyStrMax (pyStrMax (pyStrMax (parts.getD 2 "") (parts.getD 3 ""))
      (parts.getD 4 "")) (parts.getD 5 "") }

/-- The `_conn` attribute of class `Symetrics`: declared as a class attribute
`_conn = None` and never assigned by `__init__` or any method, so it is
`None` whenever `get_spliceai_score` reads it. -/
def Symetrics_conn : Option Unit := none

/-- Embedding of `Symetrics.get_spliceai_score`.  Unlike every other getter
it takes its cursor from `self._conn` (not from the scoped `dbhandler`), so
with the class's actual `_conn = None` the call raises `AttributeError`
before any query is executed; `except Error` does not catch it.  On the
hypothetical path where a connection exists: zero rows make the column
assignment on an empty frame raise `ValueError`; rows whose INFO does not
split into the ten header fields make the expanded-column assignment fail,
also collapsed here into `ValueError`; otherwise each row is reduced by
`spliceaiRecordOfRow` and the record list is returned. -/
def get_spliceai_score (conn : Option Unit) (db : List SpliceaiRow)
    (v : VariantObject) : PyResult (List SpliceaiRec) × List SqlQuery :=
  match conn with
  | none => (PyResult.raise "AttributeError", [])
  | some _ =>
      let q : SqlQuery :=
        { table := "SPLICEAI", whereChr := v.chr, wherePosCol := "pos",
          wherePos := v.pos, whereRef := v.ref, whereAlt := v.alt }
      let rows := db.filter (spliceaiMatches v)
      match rows with
      | [] => (PyResult.raise "ValueError", [q])
      | _ :: _ =>
          if rows.all (fun r => (splitPipe r.info).length == 10) then
            (PyResult.ret (rows.map spliceaiRecordOfRow), [q])
          else (PyResult.raise "ValueError", [q])

/-- A row of the `gnomad_db` table. -/
structure GnomadRow where
  chr : String
  pos : Int
  ref : String
  alt : String
  ac : String
  an : String
  af : String
deriving DecidableEq, Repr

/-- The dictionary `get_gnomad_data` builds from the first fetched row. -/
structure GnomadData where
  CHR : String
  POS : Int
  REF : String
  ALT : String
  AC : String
  AN : String
  AF : String
deriving DecidableEq, Repr

/-- The WHERE clause of the gnomad query. -/
def gnomadMatches (v : VariantObject) (r : GnomadRow) : Bool :=
  r.chr == v.chr && r.pos == v.pos && r.ref == v.ref && r.alt == v.alt

/-- Embedding of `Symetrics.get_gnomad_data`: for an hg19 variant it only
prints a message and returns the initial `None` without executing any query;
for an hg38 variant it runs the query, returns `None` (logging an error)
on zero rows, and otherwise builds the dictionary from the first row. -/
def get_gnomad_data (db : List GnomadRow) (v : VariantObject) :
    PyResult (Option GnomadData) × List SqlQuery :=
  match v.genome with
  | GenomeReference.hg19 => (PyResult.ret none, [])
  | GenomeReference.hg38 =>
      let q : SqlQuery :=
        { table := "gnomad_db", whereChr := v.chr, wherePosCol := "pos",
          wherePos := v.pos, whereRef := v.ref, whereAlt := v.alt }
      match db.filter (gnomadMatches v) with
      | [] => (PyResult.ret none, [q])
      | r :: _ =>
          (PyResult.ret (some
            { CHR := r.chr, POS := r.pos, REF := r.ref, ALT := r.alt,
              AC := r.ac, AN := r.an, AF := r.af }), [q])

/-- The hg19-position WHERE clause of the SYNVEP bridge table, used by the
hg19 branch of `liftover`: exact match on `chr`, `pos`, `ref`, `alt`. -/
def synvepMatchesPos (v : VariantObject) (r : SynvepRow) : Bool :=
  r.chr == v.chr && r.pos == v.pos && r.ref == v.ref && r.alt == v.alt

/-- Embedding of `Symetrics.liftover`.  An hg38 variant is looked up in the
SYNVEP bridge table by its `pos_GRCh38` column and the new `VariantObject`
takes `pos as POS` (the hg19 position) tagged `hg19`; an hg19 variant is
looked up by `pos` and takes `pos_GRCh38 as POS` tagged `hg38`.  Chromosome,
reference and alternate alleles come from the matched row
(`variant_info[0]`, `[2]`, `[3]`).  Zero rows raise `IndexError` via
`synvep_rows[0]`, uncaught by `except Error`. -/
def liftover (db : List SynvepRow) (v : VariantObject) :
    PyResult VariantObject × List SqlQuery :=
  match v.genome with
  | GenomeReference.hg38 =>
      let q : SqlQuery :=
        { table := "SYNVEP", whereChr := v.chr, wherePosCol := "pos_GRCh38",
          wherePos := v.pos, whereRef := v.ref, whereAlt := v.alt }
      match db.filter (synvepMatchesGRCh38 v) with
      | [] => (PyResult.raise "IndexError", [q])
      | r :: _ =>
          (PyResult.ret ⟨r.chr, r.pos, r.ref, r.alt, GenomeReference.hg19⟩,
            [q])
  | GenomeReference.hg19 =>
      let q : SqlQuery :=
        { table := "SYNVEP", whereChr := v.chr, wherePosCol := "pos",
          wherePos := v.pos, whereRef := v.ref, whereAlt := v.alt }
      match db.filter (synvepMatchesPos v) with
      | [] => (PyResult.raise "IndexError", [q])
      | r :: _ =>
          (PyResult.ret
            ⟨r.chr, r.pos_GRCh38, r.ref, r.alt, GenomeReference.hg38⟩, [q])

/-- Modelled from the spec: the `MetricsGroup` enumeration from
`symetrics.src.datastruct` (not under `src/`), the closed set of metric
groups.  The source names the groups SYNVEP, GERP, CpG, CpG_exon, RSCU,
dRSCU, SpliceAI and SURF in the `get_prop_score` docstring and dispatches on
`MetricsGroup.SYNVEP.name` and `MetricsGroup.SURF.name`. -/
inductive MetricsGroup where
  | SYNVEP : MetricsGroup
  | GERP : MetricsGroup
  | CPG : MetricsGroup
  | CPG_EXON : MetricsGroup
  | RSCU : MetricsGroup
  | DRSCU : MetricsGroup
  | SPLICEAI : MetricsGroup
  | SURF : MetricsGroup
deriving DecidableEq, Repr

/-- The list of member names of `MetricsGroup`, the set the source's
`if group in MetricsGroup.__members__` tests against. -/
def MetricsGroup.memberNames : List String :=
  ["SYNVEP", "GERP", "CPG", "CPG_EXON", "RSCU", "DRSCU", "SPLICEAI", "SURF"]

/-- A row of a metric group's constraint CSV.  The gene column is named
`GENES` in the SYNVEP and SURF files and `GENE` in the others; it is
represented uniformly by the `gene` field here, and the `z` column holds the
raw pooled-z statistic. -/
structure ConstraintRow where
  gene : String
  pval : ℚ
  fdr : ℚ
  z : ℚ
deriving DecidableEq, Repr

/-- One record of the list `get_prop_score` returns after renaming the
columns to GENE, PVAL, FDR, SYMETRIC_SCORE, NORM_SYMETRIC_SCORE and adding
GROUP. -/
structure PropRec where
  GENE : String
  PVAL : ℚ
  FDR : ℚ
  SYMETRIC_SCORE : ℚ
  NORM_SYMETRIC_SCORE : ℝ
  GROUP : String

/-- Mean of a list of rationals.  Only ever applied to nonempty columns:
`scale_then_filter` raises before fitting on an empty one, as sklearn
does. -/
def listMean (l : List ℚ) : ℚ := l.sum / l.length

/-- Population variance (`ddof = 0`, as `StandardScaler` uses) of a list of
rationals. -/
def listVar (l : List ℚ) : ℚ :=
  (l.map (fun x => (x - listMean l) ^ 2)).sum / l.length

/-- The transform `sklearn.preprocessing.StandardScaler().fit_transform`
applied to the column `l`, read at the entry with raw value `x`: subtract the column mean
and divide by the standard deviation, a zero standard deviation being
replaced by `1` (sklearn's `_handle_zeros_in_scale`). -/
noncomputable def standardScale (l : List ℚ) (x : ℚ) : ℝ :=
  let s := Real.sqrt (listVar l)
  ((x : ℚ) - listMean l) / (if s = 0 then 1 else s)

/-- The body shared by the three `match` arms of `get_prop_score`: fit the
scaler on the `z` column of the whole table, attach the scaled column, then
filter to the requested gene and rename the columns.  The three source arms
differ only in the name of the gene column they filter
(`scores.GENES` for SYNVEP and SURF, `scores.GENE` otherwise), which
`ConstraintRow.gene` canonicalises. -/
noncomputable def prop_branch (tbl : List ConstraintRow) (group gene : String) :
    List PropRec :=
  (tbl.filter (fun r => r.gene == gene)).map
    (fun r =>
      ⟨r.gene, r.pval, r.fdr, r.z, standardScale (tbl.map ConstraintRow.z) r.z,
        group⟩)

/-- The outcome of one `match` arm of `get_prop_score` after the file read:
`scaler.fit_transform(scores[['z']])` requires at least one sample, so on an
empty table it raises `ValueError`, which `get_prop_score` does not catch;
on a nonempty table the arm scales, filters and renames via
`prop_branch`. -/
noncomputable def scale_then_filter (tbl : List ConstraintRow)
    (group gene : String) : PyResult (Option (List PropRec)) :=
  match tbl with
  | [] => PyResult.raise "ValueError"
  | _ :: _ => PyResult.ret (some (prop_branch tbl group gene))

/-- Embedding of `Symetrics.get_prop_score`.  `tables` models
`pd.read_csv(synvep_constraints[group])`, keyed by the group name; the
second component of the result lists the constraint files read.  A group
name outside `MetricsGroup.__members__` only logs an error and returns the
initial `None` without reading any file; a member name reads its file, then
fits the scaler (raising `ValueError` on an empty table), filters and
returns the record list (empty when the gene has no row). -/
noncomputable def get_prop_score (tables : String → List ConstraintRow)
    (group gene : String) : PyResult (Option (List PropRec)) × List String :=
  if group ∈ MetricsGroup.memberNames then
    if group == "SYNVEP" then
      (scale_then_filter (tables group) group gene, [group])
    else if group == "SURF" then
      (scale_then_filter (tables group) group gene, [group])
    else
      (scale_then_filter (tables group) group gene, [group])
  else (PyResult.ret none, [])

/-- A SILVA row matching the docstring example variant on chromosome 7. -/
def silvaRow7 : SilvaRow :=
  ⟨"7", 91763673, "C", "A", "AKAP9", "1.2", "0.3", "4.1", "0", "1"⟩

/-- A SURF row matching the docstring example variant: its GENE column is
"AKAP9" and its SURF column is "0.42". -/
def surfRow7 : SurfRow := ⟨"7", 91763673, "C", "A", "AKAP9", "0.42"⟩

/-- A SYNVEP bridge row whose hg19 position (91341202) differs from its hg38
position (91763673). -/
def synvepRow7 : SynvepRow :=
  ⟨"7", 91341202, 91763673, "C", "A", "AKAP9", "0.71"⟩

/-- A SPLICEAI row for the example variant whose INFO field carries the
spec's four delta scores DS_AG=0.2, DS_AL=0.9, DS_DG=0.1, DS_DL=0.05. -/
def spliceaiRow7 : SpliceaiRow :=
  ⟨"7", 91763673, "C", "A", "A|AKAP9|0.2|0.9|0.1|0.05|-14|2|-36|38"⟩

/-- C1.  The claim says every zero-match lookup returns the explicit
NotFound/empty outcome and never raises.  In the code only the
population-frequency getter does: `get_silva_score`, `get_surf_score`,
`get_synvep_score` and `liftover` subscript `rows[0]`, which on zero rows
raises `IndexError`, uncaught because `except Error` only catches
`sqlite3.Error`; `get_spliceai_score` raises `AttributeError` before even
querying.  Only `get_gnomad_data` returns `None` on zero rows. -/
theorem zero_row_lookups_raise_IndexError :
    (get_silva_score [] exampleVariantHg19).1 = PyResult.raise "IndexError" ∧
    (get_surf_score [] exampleVariantHg38).1 = PyResult.raise "IndexError" ∧
    (get_synvep_score [] exampleVariantHg19).1 = PyResult.raise "IndexError" ∧
    (liftover [] exampleVariantHg19).1 = PyResult.raise "IndexError" ∧
    (get_spliceai_score Symetrics_conn [] exampleVariantHg38).1 =
      PyResult.raise "AttributeError" ∧
    (get_gnomad_data [] exampleVariantHg38).1 = PyResult.ret none := by
  decide

/-- C2.  The hg19 branch of `get_synvep_score` filters on the hg38 position
column (`pos_GRCh38 = variant pos`) but selects `pos as POS`, so the record
returned for an hg19 variant carries the row's hg19 position, which differs
from the input position whenever the two position columns differ: the
returned fields do not echo the input key. -/
theorem synvep_hg19_lookup_does_not_echo_position :
    (get_synvep_score [synvepRow7] exampleVariantHg19).1 =
      PyResult.ret ⟨"7", 91341202, "C", "A", "AKAP9", "0.71"⟩ ∧
    (91341202 : Int) ≠ exampleVariantHg19.pos := by
  decide

/-- C3.  On the spec's end-to-end scenario (hg38 variant chr 7, pos
91763673, C to A, store holding exactly one matching row),
`get_spliceai_score` raises `AttributeError` without executing any query,
because it reads its cursor from the never-assigned class attribute
`self._conn` (`None`).  With a working handle the same call would have
returned MAX_DS as the string "0.9", the lexicographic Python `max` of the
four delta-score substrings, not a numeric field. -/
theorem get_spliceai_score_raises_AttributeError :
    get_spliceai_score Symetrics_conn [spliceaiRow7] exampleVariantHg38 =
      (PyResult.raise "AttributeError", []) ∧
    (get_spliceai_score (some ()) [spliceaiRow7] exampleVariantHg38).1 =
      PyResult.ret [⟨"7", 91763673, "C", "A", "0.9"⟩] := by
  decide

/-- C4.  `get_surf_score` selects six columns (CHR, POS, REF, ALT, GENE,
SURF) but builds its dictionary from tuple indices 0..4, so the value
returned under the SURF key is the row's GENE column ("AKAP9" here), while
the row's actual SURF value ("0.42") and the GENE field are silently
dropped. -/
theorem get_surf_score_returns_gene_as_SURF :
    (get_surf_score [surfRow7] exampleVariantHg38).1 =
      PyResult.ret ⟨"7", 91763673, "C", "A", "AKAP9"⟩ ∧
    surfRow7.surf = "0.42" ∧ ("AKAP9" : String) ≠ "0.42" := by
  decide

/-- C6.  A group name outside `MetricsGroup.__members__` makes
`get_prop_score` return its initial `None` with an empty file-read trace:
the membership test precedes every `pd.read_csv`. -/
theorem get_prop_score_invalid_group_reads_no_file
    (tables : String → List ConstraintRow) (group gene : String)
    (h : group ∉ MetricsGroup.memberNames) :
    get_prop_score tables group gene = (PyResult.ret none, []) := by
  unfold get_prop_score
  rw [if_neg h]

/-- Concrete instance of C6 at the spec's example group name. -/
theorem get_prop_score_invalid_group_witness :
    "NOT_A_GROUP" ∉ MetricsGroup.memberNames ∧
    get_prop_score (fun _ => []) "NOT_A_GROUP" "A1BG" =
      (PyResult.ret none, []) :=
  ⟨by decide,
    get_prop_score_invalid_group_reads_no_file (fun _ => []) "NOT_A_GROUP"
      "A1BG" (by decide)⟩

/-- C7, counterexample.  The conservation (SILVA) table is hg19-only, yet a
lookup with an hg38-tagged variant is not rejected: the query executes (the
trace holds the SILVA query) and an ordinary score record is returned, not
any BuildMismatch/Unsupported signal. -/
theorem silva_executes_query_for_hg38_build :
    exampleVariantHg38.genome = GenomeReference.hg38 ∧
    (get_silva_score [silvaRow7] exampleVariantHg38).2 =
      [⟨"SILVA", "7", "pos", 91763673, "C", "A"⟩] ∧
    (get_silva_score [silvaRow7] exampleVariantHg38).1 =
      PyResult.ret
        ⟨"7", 91763673, "C", "A", "AKAP9", "1.2", "0.3", "4.1", "0", "1"⟩ := by
  decide

/-- C7, amended.  Neither `get_silva_score` nor `get_surf_score` checks the
variant's genome build: both always execute their query, whatever the build.
Only the population-frequency getter checks the build: for an hg19 variant
`get_gnomad_data` executes no query and returns `None` — the same sentinel
value as the not-found outcome, distinguished only by the printed message. -/
theorem build_checks_only_in_gnomad (silvaDb : List SilvaRow)
    (surfDb : List SurfRow) (gnomadDb : List GnomadRow) (v : VariantObject) :
    (get_silva_score silvaDb v).2 ≠ [] ∧
    (get_surf_score surfDb v).2 ≠ [] ∧
    (v.genome = GenomeReference.hg19 →
      get_gnomad_data gnomadDb v = (PyResult.ret none, [])) := by
  refine ⟨?_, ?_, ?_⟩
  · unfold get_silva_score
    cases silvaDb.filter (silvaMatches v) <;> simp
  · unfold get_surf_score
    cases surfDb.filter (surfMatches v) <;> simp
  · intro h
    unfold get_gnomad_data
    rw [h]

/-- Concrete instance of the amended C7 at the example hg19 variant. -/
theorem build_checks_only_in_gnomad_witness :
    (get_silva_score [] exampleVariantHg19).2 ≠ [] ∧
    (get_surf_score [] exampleVariantHg19).2 ≠ [] ∧
    get_gnomad_data [] exampleVariantHg19 = (PyResult.ret none, []) := by
  have h := build_checks_only_in_gnomad [] [] [] exampleVariantHg19
  exact ⟨h.1, h.2.1, h.2.2 rfl⟩

/-- The opposite genome build, as liftover's `new_reference` computes it. -/
def oppositeBuild : GenomeReference → GenomeReference
  | GenomeReference.hg19 => GenomeReference.hg38
  | GenomeReference.hg38 => GenomeReference.hg19

/-- The name of the bridge-table position column indexed by the given build:
`pos` is the hg19 position, `pos_GRCh38` the hg38 position. -/
def ownPosColumn : GenomeReference → String
  | GenomeReference.hg19 => "pos"
  | GenomeReference.hg38 => "pos_GRCh38"

/-- The WHERE clause liftover issues for a variant: exact match on
chromosome, reference and alternate alleles, and on the position column of
the variant's own build. -/
def bridgeMatches (v : VariantObject) : SynvepRow → Bool :=
  match v.genome with
  | GenomeReference.hg19 => synvepMatchesPos v
  | GenomeReference.hg38 => synvepMatchesGRCh38 v

/-- A bridge row's position in the build opposite to the given one. -/
def oppositePos : GenomeReference → SynvepRow → Int
  | GenomeReference.hg19, r => r.pos_GRCh38
  | GenomeReference.hg38, r => r.pos

/-- C8.  When the bridge table has a matching row, `liftover` issues exactly
one query against SYNVEP keyed on the position column of the variant's own
build, and the returned VariantObject takes chromosome, reference and
alternate alleles from the first matched row, its position from the other
build's position column, and is tagged with the opposite build. -/
theorem liftover_queries_own_build_returns_opposite (db : List SynvepRow)
    (v : VariantObject) (r : SynvepRow) (rest : List SynvepRow)
    (hmatch : db.filter (bridgeMatches v) = r :: rest) :
    liftover db v =
      (PyResult.ret
        ⟨r.chr, oppositePos v.genome r, r.ref, r.alt, oppositeBuild v.genome⟩,
        [⟨"SYNVEP", v.chr, ownPosColumn v.genome, v.pos, v.ref, v.alt⟩]) := by
  unfold bridgeMatches at hmatch
  cases hg : v.genome <;>
    · rw [hg] at hmatch
      unfold liftover
      rw [hg, hmatch]
      rfl

/-- The hg19 side of the bridge row `synvepRow7`, as a variant key. -/
def bridgeVariantHg19 : VariantObject :=
  ⟨"7", 91341202, "C", "A", GenomeReference.hg19⟩

/-- Concrete instance of C8: lifting `bridgeVariantHg19` over a one-row
bridge table yields the row's hg38 position tagged hg38, after one query on
the `pos` column. -/
theorem liftover_queries_own_build_witness :
    ([synvepRow7] : List SynvepRow).filter (bridgeMatches bridgeVariantHg19) =
      [synvepRow7] ∧
    liftover [synvepRow7] bridgeVariantHg19 =
      (PyResult.ret ⟨"7", 91763673, "C", "A", GenomeReference.hg38⟩,
        [⟨"SYNVEP", "7", "pos", 91341202, "C", "A"⟩]) := by
  have h : ([synvepRow7] : List SynvepRow).filter
      (bridgeMatches bridgeVariantHg19) = [synvepRow7] := by decide
  exact ⟨h,
    liftover_queries_own_build_returns_opposite [synvepRow7] bridgeVariantHg19
      synvepRow7 [] h⟩

/-- C9.  Lifting a variant over and back (both lookups returning a key)
always reproduces chromosome, reference and alternate alleles, because both
WHERE clauses match them exactly; the position is also reproduced whenever
the bridge table maps (chromosome, ref, alt) keys to positions uniquely —
rows agreeing on chromosome, ref and alt agree on one position column
exactly when they agree on the other. -/
theorem liftover_round_trip (db : List SynvepRow) (v w u : VariantObject)
    (hw : (liftover db v).1 = PyResult.ret w)
    (hu : (liftover db w).1 = PyResult.ret u) :
    (u.chr = v.chr ∧ u.ref = v.ref ∧ u.alt = v.alt) ∧
    ((∀ r1 ∈ db, ∀ r2 ∈ db, r1.chr = r2.chr → r1.ref = r2.ref →
        r1.alt = r2.alt → (r1.pos = r2.pos ↔ r1.pos_GRCh38 = r2.pos_GRCh38)) →
      u.pos = v.pos) := by
  cases hvg : v.genome with
  | hg19 =>
      unfold liftover at hw
      rw [hvg] at hw
      cases h1 : db.filter (synvepMatchesPos v) with
      | nil => rw [h1] at hw; exact absurd hw (by simp)
      | cons r rest =>
          rw [h1] at hw
          simp only at hw
          injection hw with hw
          subst hw
          have hrmem : r ∈ db ∧ synvepMatchesPos v r = true :=
            List.mem_filter.mp (h1 ▸ List.mem_cons_self r rest)
          have hrkey : r.chr = v.chr ∧ r.pos = v.pos ∧ r.ref = v.ref ∧
              r.alt = v.alt := by
            have := hrmem.2
            simp only [synvepMatchesPos, Bool.and_eq_true, beq_iff_eq] at this
            exact ⟨this.1.1.1, this.1.1.2, this.1.2, this.2⟩
          unfold liftover at hu
          simp only at hu
          cases h2 : db.filter (synvepMatchesGRCh38
              ⟨r.chr, r.pos_GRCh38, r.ref, r.alt, GenomeReference.hg38⟩) with
          | nil => rw [h2] at hu; exact absurd hu (by simp)
          | cons r' rest' =>
              rw [h2] at hu
              simp only at hu
              injection hu with hu
              subst hu
              have hrmem' : r' ∈ db ∧ synvepMatchesGRCh38
                  ⟨r.chr, r.pos_GRCh38, r.ref, r.alt, GenomeReference.hg38⟩
                  r' = true :=
                List.mem_filter.mp (h2 ▸ List.mem_cons_self r' rest')
              have hrkey' : r'.chr = r.chr ∧ r'.pos_GRCh38 = r.pos_GRCh38 ∧
                  r'.ref = r.ref ∧ r'.alt = r.alt := by
                have := hrmem'.2
                simp only [synvepMatchesGRCh38, Bool.and_eq_true,
                  beq_iff_eq] at this
                exact ⟨this.1.1.1, this.1.1.2, this.1.2, this.2⟩
              refine ⟨⟨?_, ?_, ?_⟩, ?_⟩
              · exact hrkey'.1.trans hrkey.1
              · exact hrkey'.2.2.1.trans hrkey.2.2.1
              · exact hrkey'.2.2.2.trans hrkey.2.2.2
              · intro huniq
                have hpos : r'.pos = r.pos :=
                  (huniq r' hrmem'.1 r hrmem.1 hrkey'.1 hrkey'.2.2.1
                    hrkey'.2.2.2).mpr hrkey'.2.1
                exact hpos.trans hrkey.2.1
  | hg38 =>
      unfold liftover at hw
      rw [hvg] at hw
      cases h1 : db.filter (synvepMatchesGRCh38 v) with
      | nil => rw [h1] at hw; exact absurd hw (by simp)
      | cons r rest =>
          rw [h1] at hw
          simp only at hw
          injection hw with hw
          subst hw
          have hrmem : r ∈ db ∧ synvepMatchesGRCh38 v r = true :=
            List.mem_filter.mp (h1 ▸ List.mem_cons_self r rest)
          have hrkey : r.chr = v.chr ∧ r.pos_GRCh38 = v.pos ∧ r.ref = v.ref ∧
              r.alt = v.alt := by
            have := hrmem.2
            simp only [synvepMatchesGRCh38, Bool.and_eq_true,
              beq_iff_eq] at this
            exact ⟨this.1.1.1, this.1.1.2, this.1.2, this.2⟩
          unfold liftover at hu
          simp only at hu
          cases h2 : db.filter (synvepMatchesPos
              ⟨r.chr, r.pos, r.ref, r.alt, GenomeReference.hg19⟩) with
          | nil => rw [h2] at hu; exact absurd hu (by simp)
          | cons r' rest' =>
              rw [h2] at hu
              simp only at hu
              injection hu with hu
              subst hu
              have hrmem' : r' ∈ db ∧ synvepMatchesPos
                  ⟨r.chr, r.pos, r.ref, r.alt, GenomeReference.hg19⟩
                  r' = true :=
                List.mem_filter.mp (h2 ▸ List.mem_cons_self r' rest')
              have hrkey' : r'.chr = r.chr ∧ r'.pos = r.pos ∧
                  r'.ref = r.ref ∧ r'.alt = r.alt := by
                have := hrmem'.2
                simp only [synvepMatchesPos, Bool.and_eq_true,
                  beq_iff_eq] at this
                exact ⟨this.1.1.1, this.1.1.2, this.1.2, this.2⟩
              refine ⟨⟨?_, ?_, ?_⟩, ?_⟩
              · exact hrkey'.1.trans hrkey.1
              · exact hrkey'.2.2.1.trans hrkey.2.2.1
              · exact hrkey'.2.2.2.trans hrkey.2.2.2
              · intro huniq
                have hpos : r'.pos_GRCh38 = r.pos_GRCh38 :=
                  (huniq r' hrmem'.1 r hrmem.1 hrkey'.1 hrkey'.2.2.1
                    hrkey'.2.2.2).mp hrkey'.2.1
                exact hpos.trans hrkey.2.1

/-- The hg38 side of the bridge row `synvepRow7`, as a variant key. -/
def liftedVariantHg38 : VariantObject :=
  ⟨"7", 91763673, "C", "A", GenomeReference.hg38⟩

/-- Concrete instance of C9 on a one-row (hence unique-mapping) bridge
table: hg19 to hg38 and back reproduces the key, position included. -/
theorem liftover_round_trip_witness :
    ((liftover [synvepRow7] bridgeVariantHg19).1 =
      PyResult.ret liftedVariantHg38) ∧
    ((liftover [synvepRow7] liftedVariantHg38).1 =
      PyResult.ret bridgeVariantHg19) ∧
    (bridgeVariantHg19.chr = bridgeVariantHg19.chr ∧
      bridgeVariantHg19.ref = bridgeVariantHg19.ref ∧
      bridgeVariantHg19.alt = bridgeVariantHg19.alt) ∧
    bridgeVariantHg19.pos = bridgeVariantHg19.pos := by
  have h1 : (liftover [synvepRow7] bridgeVariantHg19).1 =
      PyResult.ret liftedVariantHg38 := by decide
  have h2 : (liftover [synvepRow7] liftedVariantHg38).1 =
      PyResult.ret bridgeVariantHg19 := by decide
  have huniq : ∀ r1 ∈ ([synvepRow7] : List SynvepRow),
      ∀ r2 ∈ ([synvepRow7] : List SynvepRow), r1.chr = r2.chr →
      r1.ref = r2.ref → r1.alt = r2.alt →
      (r1.pos = r2.pos ↔ r1.pos_GRCh38 = r2.pos_GRCh38) := by decide
  exact ⟨h1, h2,
    (liftover_round_trip [synvepRow7] bridgeVariantHg19 liftedVariantHg38
      bridgeVariantHg19 h1 h2).1,
    (liftover_round_trip [synvepRow7] bridgeVariantHg19 liftedVariantHg38
      bridgeVariantHg19 h1 h2).2 huniq⟩

/-- C10.  For a group name in the enumeration and a nonempty constraint
table (an empty table would make `scaler.fit_transform` raise `ValueError`,
as `scale_then_filter` models), `get_prop_score` returns a list of record
dictionaries, empty whenever the gene has no row in the group's table; for
a name outside the enumeration it returns the `None` sentinel.  Both
outcomes are returned values of the call, never exceptions, and they are
distinguishable. -/
theorem get_prop_score_sentinel_outcomes
    (tables : String → List ConstraintRow) (group gene : String) :
    (group ∈ MetricsGroup.memberNames → tables group ≠ [] →
      ∃ l : List PropRec,
        (get_prop_score tables group gene).1 = PyResult.ret (some l) ∧
        ((∀ r ∈ tables group, r.gene ≠ gene) → l = [])) ∧
    (group ∉ MetricsGroup.memberNames →
      (get_prop_score tables group gene).1 = PyResult.ret none) := by
  constructor
  · intro hmem hne
    refine ⟨prop_branch (tables group) group gene, ?_, ?_⟩
    · have hsome : (get_prop_score tables group gene).1 =
          scale_then_filter (tables group) group gene := by
        unfold get_prop_score
        rw [if_pos hmem]
        split_ifs <;> rfl
      rw [hsome]
      cases htbl : tables group with
      | nil => exact absurd htbl hne
      | cons a as => rfl
    · intro hnone
      unfold prop_branch
      rw [List.filter_eq_nil_iff.mpr (fun r hr => by
        simpa using hnone r hr)]
      rfl
  · intro hmem
    unfold get_prop_score
    rw [if_neg hmem]

/-- A one-row constraint table, nonempty as every deployed constraint file
is, whose single gene is GENEA. -/
def oneGeneTables : String → List ConstraintRow := fun _ => [⟨"GENEA", 1, 1, 2⟩]

/-- Concrete instance of C10: a valid group whose nonempty table lacks the
requested gene yields `some []`; an invalid group yields `none`. -/
theorem get_prop_score_sentinel_witness :
    "GERP" ∈ MetricsGroup.memberNames ∧
    oneGeneTables "GERP" ≠ [] ∧
    (get_prop_score oneGeneTables "GERP" "A1BG").1 =
      PyResult.ret (some []) ∧
    "NOT_A_GROUP" ∉ MetricsGroup.memberNames ∧
    (get_prop_score oneGeneTables "NOT_A_GROUP" "A1BG").1 =
      PyResult.ret none := by
  have hmem : "GERP" ∈ MetricsGroup.memberNames := by decide
  have hne : oneGeneTables "GERP" ≠ [] := by decide
  have hnot : "NOT_A_GROUP" ∉ MetricsGroup.memberNames := by decide
  obtain ⟨l, hl, hempty⟩ :=
    (get_prop_score_sentinel_outcomes oneGeneTables "GERP" "A1BG").1 hmem hne
  have hl0 : l = [] := hempty (by decide)
  exact ⟨hmem, hne, hl0 ▸ hl, hnot,
    (get_prop_score_sentinel_outcomes oneGeneTables "NOT_A_GROUP" "A1BG").2
      hnot⟩

/-- C5.  `get_prop_score` fits the scaler on the raw `z` column of the
whole table and only then filters to the requested gene, so on a table
whose `z` column is [1, 2, 3, 4, 5] (mean 3) every returned record whose
raw statistic is 3 carries a scaled statistic of 0, whichever single gene
the call filters to. -/
theorem get_prop_score_scales_before_filtering
    (tables : String → List ConstraintRow) (group gene : String)
    (hmem : group ∈ MetricsGroup.memberNames)
    (hz : (tables group).map ConstraintRow.z = [1, 2, 3, 4, 5])
    (l : List PropRec)
    (hl : (get_prop_score tables group gene).1 = PyResult.ret (some l))
    (r : PropRec) (hr : r ∈ l)
    (hraw : r.SYMETRIC_SCORE = 3) :
    r.NORM_SYMETRIC_SCORE = 0 := by
  have hsome : (get_prop_score tables group gene).1 =
      scale_then_filter (tables group) group gene := by
    unfold get_prop_score
    rw [if_pos hmem]
    split_ifs <;> rfl
  rw [hsome] at hl
  cases htbl : tables group with
  | nil => rw [htbl] at hz; exact absurd hz (by simp)
  | cons a as =>
      rw [htbl] at hl
      unfold scale_then_filter at hl
      injection hl with hl
      injection hl with hl
      rw [← hl] at hr
      unfold prop_branch at hr
      rw [List.mem_map] at hr
      obtain ⟨r0, hr0, rfl⟩ := hr
      have h3 : r0.z = 3 := hraw
      rw [htbl] at hz
      show standardScale ((a :: as).map ConstraintRow.z) r0.z = 0
      rw [hz, h3]
      have hm : listMean [1, 2, 3, 4, 5] = 3 := by
        norm_num [listMean]
      unfold standardScale
      rw [hm]
      norm_num

/-- A five-gene constraint table whose raw statistics are 1, 2, 3, 4, 5. -/
def fiveGeneTables : String → List ConstraintRow := fun _ =>
  [⟨"GENEA", 1, 1, 1⟩, ⟨"GENEB", 1, 1, 2⟩, ⟨"GENEC", 1, 1, 3⟩,
    ⟨"GENED", 1, 1, 4⟩, ⟨"GENEE", 1, 1, 5⟩]

/-- The record `get_prop_score` produces for GENEC on `fiveGeneTables`. -/
noncomputable def geneCRecord : PropRec :=
  ⟨"GENEC", 1, 1, 3, standardScale [1, 2, 3, 4, 5] 3, "SYNVEP"⟩

/-- Concrete instance of C5: filtering `fiveGeneTables` to GENEC (raw
statistic 3) yields a record scaled to 0. -/
theorem get_prop_score_scales_witness :
    "SYNVEP" ∈ MetricsGroup.memberNames ∧
    (fiveGeneTables "SYNVEP").map ConstraintRow.z = [1, 2, 3, 4, 5] ∧
    (get_prop_score fiveGeneTables "SYNVEP" "GENEC").1 =
      PyResult.ret (some [geneCRecord]) ∧
    geneCRecord.SYMETRIC_SCORE = 3 ∧
    geneCRecord.NORM_SYMETRIC_SCORE = 0 := by
  have h1 : "SYNVEP" ∈ MetricsGroup.memberNames := by decide
  have h2 : (fiveGeneTables "SYNVEP").map ConstraintRow.z =
      [1, 2, 3, 4, 5] := rfl
  have h3 : (get_prop_score fiveGeneTables "SYNVEP" "GENEC").1 =
      PyResult.ret (some [geneCRecord]) := rfl
  have h4 : geneCRecord.SYMETRIC_SCORE = 3 := rfl
  exact ⟨h1, h2, h3, h4,
    get_prop_score_scales_before_filtering fiveGeneTables "SYNVEP" "GENEC"
      h1 h2 [geneCRecord] h3 geneCRecord (List.mem_singleton_self _) h4⟩
